import Mathlib

/-!
Verification of the tulasu/messaging repository.

The development shallowly embeds the two Rust crates of the repository:

* namespace Core models the core crate (src/core): domain value objects,
  the routing service retry schedule, the VK adapter chat-id validation
  and the send-message use case.
* namespace Service models the root crate (src/src): the message history
  store, the messenger token repositories, the schedule-message use case
  and the jetstream dispatch pipeline.

Machine integers are modelled as Nat / Int; adapter and broker I/O is
modelled by passing the call outcome as an explicit argument; stateful
repositories are modelled by explicit state passing over lists. Uuid
values and timestamps are modelled as Nat, supplied explicitly where the
Rust code draws fresh ones.
-/

namespace Messaging

deriving instance DecidableEq for Except

namespace Core

/-- Platform identifiers of the core crate (src/core/src/domain/models/messenger_type.rs). -/
inductive MessengerType where
  | telegram
  | vk
  | max
deriving DecidableEq, Repr

/-- Text formats of the core crate (src/core/src/domain/models/value_objects.rs). -/
inductive TextFormat where
  | plain
  | markdown
  | html
deriving DecidableEq, Repr

/-- Adapter error taxonomy (src/core/src/infrastructure/messengers/mod.rs). -/
inductive MessengerError where
  | apiError (msg : String)
  | authenticationError
  | rateLimitExceeded
  | invalidChatId (chatId : String)
  | messageTooLong
  | networkError (msg : String)
  | unknown (msg : String)
deriving DecidableEq, Repr

/-- Retry backoff of DefaultMessageRoutingService::calculate_retry_schedule
(src/core/src/domain/services/message_routing_service.rs): the Rust code
computes 60 * 2_u64.pow(retry_count.min(4)) and wraps it in
Duration::seconds, so the result is a number of seconds. -/
def calculate_retry_schedule (retry_count : Nat) : Nat :=
  60 * 2 ^ (min retry_count 4)

/-- Value of a digit run, or none when a non-digit occurs. Mirrors the digit
accumulation of Rust i64 from_str. -/
def digitsVal (cs : List Char) : Option Nat :=
  cs.foldl (fun acc c => acc.bind fun n =>
    if c.isDigit then some (n * 10 + (c.toNat - 48)) else none) (some 0)

/-- Digit run parse: fails on an empty run, as Rust integer parsing does. -/
def parseDigits (cs : List Char) : Option Nat :=
  if cs.isEmpty then none else digitsVal cs

/-- Largest i64 value. -/
def i64Max : Int := 2 ^ 63 - 1

/-- Rust str::parse semantics at type i64: an optional sign followed by at
least one ASCII digit, rejecting values outside the i64 range. -/
def parse_i64 (s : String) : Option Int :=
  match s.data with
  | [] => none
  | c :: rest =>
    if c = '-' then
      (parseDigits rest).bind fun n =>
        if (n : Int) ≤ 2 ^ 63 then some (-(n : Int)) else none
    else if c = '+' then
      (parseDigits rest).bind fun n =>
        if (n : Int) ≤ i64Max then some ((n : Int)) else none
    else
      (parseDigits (c :: rest)).bind fun n =>
        if (n : Int) ≤ i64Max then some ((n : Int)) else none

/-- VKAdapter::validate_chat_id (src/core/src/infrastructure/messengers/vk.rs):
empty input is Ok(false); otherwise the input is parsed as i64, a successful
parse returns Ok of the positivity check and a parse failure is mapped to
an InvalidChatId error. -/
def vk_validate_chat_id (chat_id : String) : Except MessengerError Bool :=
  if chat_id.isEmpty then Except.ok false
  else
    match parse_i64 chat_id with
    | some n => Except.ok (decide (0 < n))
    | none => Except.error (MessengerError.invalidChatId chat_id)

/-- Destination delivery status (src/core/src/domain/models/message.rs). -/
inductive DeliveryStatus where
  | pending
  | queued
  | processing
  | sent
  | failed
  | retryScheduled
deriving DecidableEq, Repr

/-- Message payload (src/core/src/domain/models/payload.rs). -/
inductive Payload where
  | plain (content : String)
  | formatted (content : String) (format : TextFormat)
deriving DecidableEq, Repr

/-- One delivery destination of a message (src/core/src/domain/models/message.rs).
The chat_id field holds the string wrapped by ChatId. -/
structure MessageDestination where
  id : Nat
  message_id : Nat
  messenger_type : MessengerType
  chat_id : String
  status : DeliveryStatus
  retry_count : Nat
  last_attempt : Option Nat
  sent_at : Option Nat
  error_message : Option String
deriving DecidableEq, Repr

/-- A message with its destinations (src/core/src/domain/models/message.rs). -/
structure Message where
  id : Nat
  payload : Payload
  destinations : List MessageDestination
  created_at : Nat
deriving DecidableEq, Repr

/-- Errors of the send use case (src/core/src/application/usecases/send_message_usecase.rs). -/
inductive SendMessageError where
  | invalidContent (msg : String)
  | invalidDestination (msg : String)
  | domainError (msg : String)
  | repositoryError (msg : String)
  | queueError (msg : String)
deriving DecidableEq, Repr

/-- A send request (src/core/src/application/usecases/send_message_usecase.rs). -/
structure SendMessageRequest where
  content : String
  format : Option String
  destinations : List (MessengerType × String)
deriving DecidableEq, Repr

/-- Domain events emitted by the routing service
(src/core/src/domain/events/mod.rs); only the two variants produced by
route_message are modelled. -/
inductive DomainEvent where
  | messageCreated (message_id : Nat) (destinations : List (MessengerType × String))
      (occurred_at : Nat)
  | messageQueued (message_id : Nat) (destination_id : Nat)
      (messenger_type : MessengerType) (occurred_at : Nat)
deriving DecidableEq, Repr

/-- DefaultMessageRoutingService::route_message
(src/core/src/domain/services/message_routing_service.rs): one
MessageCreated event followed by one MessageQueued event per destination,
in input order. -/
def route_message (msg : Message) (now : Nat) : List DomainEvent :=
  DomainEvent.messageCreated msg.id
      (msg.destinations.map fun d => (d.messenger_type, d.chat_id)) now
    :: msg.destinations.map fun d =>
        DomainEvent.messageQueued msg.id d.id d.messenger_type now

/-- Projection selecting MessageQueued events, mirroring the
if-let filter of the enqueue loop in SendMessageUseCaseImpl::execute. -/
def queued_of : DomainEvent → Option (Nat × Nat × MessengerType)
  | DomainEvent.messageQueued m d t _ => some (m, d, t)
  | _ => none

/-- State touched by the send use case: the message repository and the
queue of enqueued (message_id, destination_id, messenger_type) triples. -/
structure CoreState where
  saved : List Message
  queued : List (Nat × Nat × MessengerType)
deriving DecidableEq, Repr

/-- The destination-building loop of SendMessageUseCaseImpl::execute:
ChatId::new rejects an empty chat id (src/core/src/domain/models/value_objects.rs),
otherwise a destination with status Pending and retry_count 0 is built.
Fresh Uuid values are modelled by consecutive ids starting at nextId. -/
def build_destinations (message_id : Nat) :
    Nat → List (MessengerType × String) → Except String (List MessageDestination)
  | _, [] => Except.ok []
  | nextId, (mt, cid) :: rest =>
    if cid = "" then Except.error "Invalid chat ID: cannot be empty"
    else
      match build_destinations message_id (nextId + 1) rest with
      | Except.error e => Except.error e
      | Except.ok ds =>
        Except.ok ({ id := nextId, message_id := message_id, messenger_type := mt,
                     chat_id := cid, status := DeliveryStatus.pending, retry_count := 0,
                     last_attempt := none, sent_at := none, error_message := none } :: ds)

/-- Format parsing of SendMessageUseCaseImpl::execute: Some("markdown") and
Some("html") map to the corresponding format, everything else (unknown
strings and an absent format alike) maps to Plain; the result is always
wrapped in Some, exactly as in the source. -/
def parse_format (format : Option String) : Option TextFormat :=
  some (match format with
    | some s => if s = "markdown" then TextFormat.markdown
        else if s = "html" then TextFormat.html
        else TextFormat.plain
    | none => TextFormat.plain)

/-- Payload construction of SendMessageUseCaseImpl::execute: Some(Plain)
and None give Payload::Plain, any other format gives Payload::Formatted. -/
def payload_of (content : String) (format : Option TextFormat) : Payload :=
  match format with
  | some TextFormat.plain => Payload.plain content
  | some f => Payload.formatted content f
  | none => Payload.plain content

/-- The enqueue loop of SendMessageUseCaseImpl::execute. The broker outcome
of the i-th enqueue call is supplied by ok; a failing call surfaces a
QueueError and stops the loop, leaving earlier enqueues in place. -/
def enqueue_list (ok : Nat → Bool) :
    CoreState → Nat → List (Nat × Nat × MessengerType) →
      Except SendMessageError Unit × CoreState
  | st, _, [] => (Except.ok (), st)
  | st, i, q :: rest =>
    if ok i then enqueue_list ok { st with queued := st.queued ++ [q] } (i + 1) rest
    else (Except.error (SendMessageError.queueError "enqueue failed"), st)

/-- The tail of SendMessageUseCaseImpl::execute after validation and
destination building: save the message, route it and enqueue every
MessageQueued event in order, returning the message id on success. -/
def save_and_enqueue (ok : Nat → Bool) (st : CoreState) (msg : Message) (now : Nat) :
    Except SendMessageError Nat × CoreState :=
  match enqueue_list ok { st with saved := st.saved ++ [msg] } 0
      ((route_message msg now).filterMap queued_of) with
  | (Except.ok _, st2) => (Except.ok msg.id, st2)
  | (Except.error e, st2) => (Except.error e, st2)

/-- SendMessageUseCaseImpl::execute
(src/core/src/application/usecases/send_message_usecase.rs): validate
content and destinations, build Pending destinations, build the payload,
save the message, route it and enqueue every MessageQueued event in order.
Fresh Uuid values are modelled by supply (message id) and supply+1, ...
(destination ids). -/
def send_message_execute (ok : Nat → Bool) (st : CoreState) (req : SendMessageRequest)
    (supply now : Nat) : Except SendMessageError Nat × CoreState :=
  -- content.trim().is_empty() holds exactly when every character of the
  -- content is whitespace
  if req.content.data.all Char.isWhitespace then
    (Except.error (SendMessageError.invalidContent "Content cannot be empty"), st)
  else if req.destinations.isEmpty then
    (Except.error (SendMessageError.invalidDestination "At least one destination is required"), st)
  else
    match build_destinations supply (supply + 1) req.destinations with
    | Except.error e => (Except.error (SendMessageError.domainError e), st)
    | Except.ok dests =>
      save_and_enqueue ok st
        { id := supply, payload := payload_of req.content (parse_format req.format),
          destinations := dests, created_at := now } now

/-- A send request for one telegram destination with no format given. -/
def sampleSendReq : SendMessageRequest :=
  { content := "hello", format := none,
    destinations := [(MessengerType.telegram, "12345")] }

/-- The message that send_message_execute persists for sampleSendReq with
id supply 10 at time 0. -/
def sampleSavedMsg : Message :=
  { id := 10, payload := Payload.plain "hello",
    destinations := [{ id := 11, message_id := 10,
                       messenger_type := MessengerType.telegram, chat_id := "12345",
                       status := DeliveryStatus.pending, retry_count := 0,
                       last_attempt := none, sent_at := none, error_message := none }],
    created_at := 0 }

end Core

namespace Service

/-- Platform identifiers of the root crate (src/src/domain/models/messenger.rs). -/
inductive MessengerType where
  | telegram
  | vk
deriving DecidableEq, Repr

/-- Message body type (src/src/domain/models/message.rs). -/
inductive MessageType where
  | plainText
deriving DecidableEq, Repr

/-- Message lifecycle status (src/src/domain/models/message.rs). -/
inductive MessageStatus where
  | pending
  | scheduled
  | inFlight
  | sent
  | retrying (reason : String) (attempts : Nat)
  | failed (reason : String) (attempts : Nat)
  | cancelled
deriving DecidableEq, Repr

/-- Origin of a request (src/src/domain/models/message.rs). -/
inductive RequestedBy where
  | system
  | user
deriving DecidableEq, Repr

/-- Message content (src/src/domain/models/message.rs). -/
structure MessageContent where
  body : String
  message_type : MessageType
deriving DecidableEq, Repr

/-- A message history row (src/src/domain/models/message.rs). -/
structure MessageHistoryEntry where
  id : Nat
  user_id : Nat
  messenger : MessengerType
  recipient : String
  content : MessageContent
  status : MessageStatus
  created_at : Nat
  updated_at : Nat
  attempts : Nat
  requested_by : RequestedBy
deriving DecidableEq, Repr

/-- An attempt row. The struct is referenced from
src/src/domain/repositories/mod.rs and its fields are reconstructed from
the columns read and written by PostgresMessageHistoryRepository
(src/src/infrastructure/repositories/postgres.rs, log_attempt and
get_attempts). -/
structure MessageAttempt where
  id : Nat
  message_id : Nat
  attempt_number : Nat
  status : MessageStatus
  requested_by : RequestedBy
  created_at : Nat
deriving DecidableEq, Repr

/-- Token status (src/src/domain/models/token.rs). -/
inductive MessengerTokenStatus where
  | active
  | inactive
deriving DecidableEq, Repr

/-- A messenger credential (src/src/domain/models/token.rs). -/
structure MessengerToken where
  id : Nat
  user_id : Nat
  messenger : MessengerType
  access_token : String
  refresh_token : Option String
  status : MessengerTokenStatus
  created_at : Nat
  updated_at : Nat
deriving DecidableEq, Repr

/-- The message history store: the message map of the repositories keyed by
id, plus the append-only attempt log of log_attempt. -/
structure HistoryStore where
  entries : List MessageHistoryEntry
  attemptLog : List MessageAttempt
deriving DecidableEq, Repr

/-- MessageHistoryRepository::get: lookup by id. -/
def getEntry (st : HistoryStore) (message_id : Nat) : Option MessageHistoryEntry :=
  st.entries.find? fun e => e.id == message_id

/-- MessageHistoryRepository::insert
(src/src/infrastructure/repositories/in_memory.rs): a fresh entry with
status Pending and zero attempts is stored under a fresh id. -/
def insertEntry (st : HistoryStore) (newId user_id : Nat) (messenger : MessengerType)
    (recipient : String) (content : MessageContent) (requested_by : RequestedBy)
    (now : Nat) : MessageHistoryEntry × HistoryStore :=
  let entry : MessageHistoryEntry := { id := newId, user_id := user_id,
                                       messenger := messenger, recipient := recipient,
                                       content := content,
                                       status := MessageStatus.pending,
                                       created_at := now, updated_at := now,
                                       attempts := 0, requested_by := requested_by }
  (entry, { st with entries := st.entries ++ [entry] })

/-- MessageHistoryRepository::update_status
(src/src/infrastructure/repositories/in_memory.rs lines 144-157, same
observable behaviour as the postgres UPDATE): when an entry with the id
exists its status, attempts and updated_at are overwritten; when it does
not, nothing changes; the call returns Ok(()) in both cases. -/
def update_status (st : HistoryStore) (message_id : Nat) (status : MessageStatus)
    (attempts now : Nat) : Except String Unit × HistoryStore :=
  (Except.ok (),
    { st with entries := st.entries.map fun e =>
        if e.id = message_id then
          { e with status := status, attempts := attempts, updated_at := now }
        else e })

/-- MessageHistoryRepository::log_attempt
(src/src/infrastructure/repositories/postgres.rs): append one attempt row. -/
def log_attempt (st : HistoryStore) (message_id attempt_number : Nat)
    (status : MessageStatus) (requested_by : RequestedBy) (now : Nat) : HistoryStore :=
  { st with attemptLog := st.attemptLog ++
      [{ id := st.attemptLog.length, message_id := message_id,
         attempt_number := attempt_number, status := status,
         requested_by := requested_by, created_at := now }] }

/-- MessengerTokenRepository::find_active
(src/src/infrastructure/repositories/in_memory.rs): the first stored token
of the user for the messenger whose status is Active. -/
def find_active (tokens : List MessengerToken) (user_id : Nat)
    (messenger : MessengerType) : Option MessengerToken :=
  tokens.find? fun t =>
    decide (t.user_id = user_id ∧ t.messenger = messenger ∧
      t.status = MessengerTokenStatus.active)

/-- The deactivation loop of InMemoryMessengerTokenRepository::upsert:
every stored Active token of the same user and messenger is flipped to
Inactive with updated_at refreshed. -/
def deactivate_matching (token : MessengerToken) (now : Nat)
    (tokens : List MessengerToken) : List MessengerToken :=
  tokens.map fun t =>
    if t.user_id = token.user_id ∧ t.messenger = token.messenger ∧
        t.status = MessengerTokenStatus.active then
      { t with status := MessengerTokenStatus.inactive, updated_at := now }
    else t

/-- HashMap::insert keyed by token id: any token with the same id is
replaced, otherwise the token is added. -/
def mapInsert (token : MessengerToken) (tokens : List MessengerToken) :
    List MessengerToken :=
  (tokens.filter fun t => decide (t.id ≠ token.id)) ++ [token]

/-- InMemoryMessengerTokenRepository::upsert
(src/src/infrastructure/repositories/in_memory.rs lines 60-77): refresh
updated_at, deactivate the previously active token of the same user and
messenger, then store the token under its id. -/
def in_memory_upsert (token : MessengerToken) (now : Nat)
    (tokens : List MessengerToken) : List MessengerToken :=
  mapInsert { token with updated_at := now } (deactivate_matching token now tokens)

/-- PostgresMessengerTokenRepository::upsert
(src/src/infrastructure/repositories/postgres.rs lines 86-129): an INSERT
with ON CONFLICT (id) DO UPDATE that overwrites access_token,
refresh_token, status and updated_at of the row with the same id, and
inserts a new row otherwise. No other row is touched: in particular no
previously active token is deactivated. -/
def postgres_upsert (token : MessengerToken) (now : Nat)
    (tokens : List MessengerToken) : List MessengerToken :=
  let tok := { token with updated_at := now }
  if tokens.any fun t => t.id == tok.id then
    tokens.map fun t =>
      if t.id = tok.id then
        { t with access_token := tok.access_token, refresh_token := tok.refresh_token,
                 status := tok.status, updated_at := tok.updated_at }
      else t
  else tokens ++ [tok]

/-- Number of stored Active tokens of one (user_id, messenger) pair. -/
def countActive (tokens : List MessengerToken) (user_id : Nat)
    (messenger : MessengerType) : Nat :=
  tokens.countP fun t =>
    decide (t.user_id = user_id ∧ t.messenger = messenger ∧
      t.status = MessengerTokenStatus.active)

/-- Descending created_at order used by list_by_user. -/
def created_desc (a b : MessageHistoryEntry) : Prop :=
  b.created_at ≤ a.created_at

instance : DecidableRel created_desc :=
  fun a b => inferInstanceAs (Decidable (b.created_at ≤ a.created_at))

instance : IsTotal MessageHistoryEntry created_desc :=
  ⟨fun a b => Nat.le_total b.created_at a.created_at⟩

instance : IsTrans MessageHistoryEntry created_desc :=
  ⟨fun _ _ _ hab hbc => Nat.le_trans hbc hab⟩

/-- PostgresMessageHistoryRepository::list_by_user
(src/src/infrastructure/repositories/postgres.rs lines 267-300): the limit
defaults to 50 and is capped at 200, the offset defaults to 0; the SQL
query (filter by user, ORDER BY created_at DESC, OFFSET, LIMIT limit+1) is
modelled by filter, sort, drop and take; has_more compares the fetched row
count with the limit and the rows beyond the limit are discarded. -/
def list_by_user (st : HistoryStore) (user_id : Nat) (limit offset : Option Nat) :
    List MessageHistoryEntry × Bool :=
  let lim := min (limit.getD 50) 200
  let off := offset.getD 0
  let sorted := List.insertionSort created_desc
    (st.entries.filter fun e => decide (e.user_id = user_id))
  let rows := (sorted.drop off).take (lim + 1)
  (rows.take lim, decide (lim < rows.length))

/-- A queued outbound work item (src/src/domain/events/mod.rs). -/
structure OutboundMessageEvent where
  event_id : Nat
  message_id : Nat
  user_id : Nat
  messenger : MessengerType
  recipient : String
  message_type : MessageType
  content : MessageContent
  attempt : Nat
  max_attempts : Nat
  scheduled_at : Nat
deriving DecidableEq, Repr

/-- MessageDispatchHandler::handle
(src/src/application/handlers/message_dispatcher.rs): load the entry by
message id, reject non-plain-text content, look up the active token, look
up the messenger client, log an InFlight attempt, call send, and on
failure set Retrying below max_attempts and Failed otherwise, logging the
outcome attempt either way. registered models whether the gateway has a
client for the messenger; sendResult is the outcome of the adapter call. -/
def handle (st : HistoryStore) (tokens : List MessengerToken) (registered : Bool)
    (sendResult : Except String Unit) (event : OutboundMessageEvent) (now : Nat) :
    Except String Unit × HistoryStore :=
  match getEntry st event.message_id with
  | none => (Except.error "message not found", st)
  | some entry =>
    let requested_by := entry.requested_by
    if event.content.message_type ≠ MessageType.plainText then
      let status := MessageStatus.failed "unsupported message type" event.attempt
      let st1 := (update_status st event.message_id status event.attempt now).2
      let st2 := log_attempt st1 event.message_id event.attempt status requested_by now
      (Except.error "unsupported message type", st2)
    else
      match find_active tokens event.user_id event.messenger with
      | none => (Except.error "missing active token for messenger", st)
      | some _ =>
        if !registered then (Except.error "no client registered for messenger", st)
        else
          let st1 := log_attempt st event.message_id event.attempt
            MessageStatus.inFlight requested_by now
          match sendResult with
          | Except.error err =>
            let status := if event.max_attempts ≤ event.attempt then
                MessageStatus.failed err event.attempt
              else MessageStatus.retrying err event.attempt
            let st2 := (update_status st1 event.message_id status event.attempt now).2
            let st3 := log_attempt st2 event.message_id event.attempt status requested_by now
            (Except.error err, st3)
          | Except.ok _ =>
            let st2 := (update_status st1 event.message_id MessageStatus.sent
              event.attempt now).2
            let st3 := log_attempt st2 event.message_id event.attempt
              MessageStatus.sent requested_by now
            (Except.ok (), st3)

/-- Outcome of processing one pulled jetstream message. -/
structure ProcessResult where
  acked : Bool
  republished : Option OutboundMessageEvent
  store : HistoryStore
deriving DecidableEq, Repr

/-- JetstreamWorker::process_message
(src/src/infrastructure/messaging/jetstream.rs lines 132-161): run the
handler; on success ack; on error ack when the attempt budget is reached,
otherwise republish the event with attempt incremented and ack. Broker ack
and publish are modelled as succeeding. -/
def process_message (st : HistoryStore) (tokens : List MessengerToken)
    (registered : Bool) (sendResult : Except String Unit)
    (event : OutboundMessageEvent) (now : Nat) : ProcessResult :=
  match handle st tokens registered sendResult event now with
  | (Except.ok _, st') => { acked := true, republished := none, store := st' }
  | (Except.error _, st') =>
    if event.max_attempts ≤ event.attempt then
      { acked := true, republished := none, store := st' }
    else
      { acked := true, republished := some { event with attempt := event.attempt + 1 },
        store := st' }

/-- A schedule request (src/src/application/usecases/schedule_message.rs). -/
structure ScheduleMessageRequest where
  user_id : Nat
  messenger : MessengerType
  recipient : String
  text : String
  requested_by : RequestedBy
deriving DecidableEq, Repr

/-- Outcome of the schedule-message use case: the returned result, the
final history store and the events that reached the bus. -/
structure ScheduleOutcome where
  result : Except String Nat
  store : HistoryStore
  published : List OutboundMessageEvent
deriving DecidableEq, Repr

/-- ScheduleMessageUseCase::execute
(src/src/application/usecases/schedule_message.rs): check that an active
token exists and bail otherwise; insert a Pending history entry; set its
status to Scheduled; then publish the outbound event. publishOk is the bus
outcome; on a failed publish the error propagates and nothing is
published, the entry keeping the status written before the publish. -/
def schedule_message (tokens : List MessengerToken) (st : HistoryStore)
    (publishOk : Bool) (req : ScheduleMessageRequest) (max_attempts : Nat)
    (newId eventId now : Nat) : ScheduleOutcome :=
  match find_active tokens req.user_id req.messenger with
  | none =>
    { result := Except.error "no active token for messenger", store := st,
      published := [] }
  | some _ =>
    let content : MessageContent :=
      { body := req.text, message_type := MessageType.plainText }
    let (entry, st1) := insertEntry st newId req.user_id req.messenger req.recipient
      content req.requested_by now
    let st2 := (update_status st1 entry.id MessageStatus.scheduled 0 now).2
    let ev : OutboundMessageEvent :=
      { event_id := eventId, message_id := entry.id, user_id := req.user_id,
        messenger := req.messenger, recipient := req.recipient,
        message_type := content.message_type, content := content, attempt := 1,
        max_attempts := max_attempts, scheduled_at := now }
    if publishOk then
      { result := Except.ok entry.id, store := st2, published := [ev] }
    else
      { result := Except.error "publish failed", store := st2, published := [] }

/-- Plain-text sample content used by the concrete scenarios below. -/
def sampleContent : MessageContent :=
  { body := "hello", message_type := MessageType.plainText }

/-- An active telegram token of user 7. -/
def sampleTokenTg : MessengerToken :=
  { id := 1, user_id := 7, messenger := MessengerType.telegram,
    access_token := "tg-tok-1", refresh_token := none,
    status := MessengerTokenStatus.active, created_at := 0, updated_at := 0 }

/-- A history entry already in terminal status Sent with one attempt. -/
def sentEntry : MessageHistoryEntry :=
  { id := 1, user_id := 7, messenger := MessengerType.telegram,
    recipient := "12345", content := sampleContent, status := MessageStatus.sent,
    created_at := 0, updated_at := 0, attempts := 1,
    requested_by := RequestedBy.user }

/-- A history entry still Pending with no attempts. -/
def pendingEntry : MessageHistoryEntry :=
  { sentEntry with status := MessageStatus.pending, attempts := 0 }

/-- A queued work item for message 1: attempt 1 of at most 3. -/
def sampleEvent : OutboundMessageEvent :=
  { event_id := 100, message_id := 1, user_id := 7,
    messenger := MessengerType.telegram, recipient := "12345",
    message_type := MessageType.plainText, content := sampleContent,
    attempt := 1, max_attempts := 3, scheduled_at := 0 }

/-- A schedule request of user 7 to telegram chat 12345. -/
def sampleScheduleReq : ScheduleMessageRequest :=
  { user_id := 7, messenger := MessengerType.telegram, recipient := "12345",
    text := "hello", requested_by := RequestedBy.user }

/-- A history store with three messages of user 7 (created at 1, 3 and 2)
and one message of user 8. -/
def sampleStore : HistoryStore :=
  { entries := [{ pendingEntry with id := 11, created_at := 1 },
                { pendingEntry with id := 12, created_at := 3 },
                { pendingEntry with id := 13, created_at := 2 },
                { pendingEntry with id := 14, user_id := 8, created_at := 9 }],
    attemptLog := [] }

end Service

/-- Helper: a conditional rewrite by id is the identity on a list that holds
no entry with that id. -/
theorem map_ite_update_eq_self (l : List Service.MessageHistoryEntry) (mid : Nat)
    (f : Service.MessageHistoryEntry → Service.MessageHistoryEntry)
    (h : ∀ e ∈ l, e.id ≠ mid) :
    (l.map fun e => if e.id = mid then f e else e) = l := by
  induction l with
  | nil => rfl
  | cons x xs ih =>
    simp only [List.map_cons]
    rw [if_neg (h x (List.mem_cons_self x xs)),
      ih fun e he => h e (List.mem_cons_of_mem x he)]

/-- C1: redelivering a QueueItem whose destination entry is already in
terminal status Sent does not skip to ack: the handler re-runs the full
dispatch, appending a fresh InFlight attempt record and a fresh Sent
attempt record to the attempt log, after invoking the adapter again. This
evaluates the dispatch handler at the failing input of the claim. -/
theorem dispatch_redelivery_after_sent_appends_attempts :
    (Service.handle { entries := [Service.sentEntry], attemptLog := [] }
        [Service.sampleTokenTg] true (Except.ok ()) Service.sampleEvent 5).2.attemptLog.map
      (fun a => a.status) =
      [Service.MessageStatus.inFlight, Service.MessageStatus.sent] ∧
    (Service.handle { entries := [Service.sentEntry], attemptLog := [] }
        [Service.sampleTokenTg] true (Except.ok ()) Service.sampleEvent 5).1 =
      Except.ok () := by
  constructor
  · rfl
  · rfl

/-- C2: when the adapter send fails with the terminal invalid-chat-id error
on attempt 1 with max_attempts 3, the dispatcher does not fail the
destination: it writes Retrying with attempt count 1 and the worker
republishes the item with attempt 2 before acking. This evaluates the
dispatch pipeline at the failing input of the claim. -/
theorem dispatch_invalid_chat_id_retries_and_republishes :
    ((Service.getEntry
        (Service.process_message { entries := [Service.pendingEntry], attemptLog := [] }
          [Service.sampleTokenTg] true (Except.error "invalid chat id")
          Service.sampleEvent 5).store 1).map fun e => e.status) =
        some (Service.MessageStatus.retrying "invalid chat id" 1) ∧
    (Service.process_message { entries := [Service.pendingEntry], attemptLog := [] }
        [Service.sampleTokenTg] true (Except.error "invalid chat id")
        Service.sampleEvent 5).republished =
      some { Service.sampleEvent with attempt := 2 } ∧
    (Service.process_message { entries := [Service.pendingEntry], attemptLog := [] }
        [Service.sampleTokenTg] true (Except.error "invalid chat id")
        Service.sampleEvent 5).acked = true := by
  refine ⟨rfl, rfl, rfl⟩

/-- C4: when the requesting user has no active token for the requested
messenger, the schedule-message use case returns the no-active-token
rejection, leaves the history store untouched and publishes nothing. -/
theorem schedule_message_no_active_token_rejects
    (tokens : List Service.MessengerToken) (st : Service.HistoryStore) (publishOk : Bool)
    (req : Service.ScheduleMessageRequest) (max_attempts newId eventId now : Nat)
    (h : Service.find_active tokens req.user_id req.messenger = none) :
    Service.schedule_message tokens st publishOk req max_attempts newId eventId now =
      { result := Except.error "no active token for messenger", store := st,
        published := [] } := by
  unfold Service.schedule_message
  rw [h]

theorem schedule_message_no_active_token_rejects_witness :
    Service.schedule_message [] { entries := [], attemptLog := [] } true
        Service.sampleScheduleReq 3 1 100 5 =
      { result := Except.error "no active token for messenger",
        store := { entries := [], attemptLog := [] }, published := [] } :=
  schedule_message_no_active_token_rejects [] { entries := [], attemptLog := [] } true
    Service.sampleScheduleReq 3 1 100 5 rfl

/-- C5 counterexample: a send whose queue publish fails after persistence
does not leave the persisted entry Pending in the schedule-message use
case: the use case sets the status to Scheduled before publishing, so when
the publish error is surfaced the stored status is Scheduled. -/
theorem schedule_publish_failure_scheduled_counterexample :
    let out := Service.schedule_message [Service.sampleTokenTg]
      { entries := [], attemptLog := [] } false Service.sampleScheduleReq 3 1 100 5
    out.result = Except.error "publish failed" ∧
      ((Service.getEntry out.store 1).map fun e => e.status) =
        some Service.MessageStatus.scheduled ∧
      Service.MessageStatus.scheduled ≠ Service.MessageStatus.pending := by
  refine ⟨rfl, rfl, by decide⟩

/-- C6 counterexample: the postgres token upsert deactivates nothing, so
two upserts of active tokens with distinct ids for the same
(user_id, messenger) pair leave two active tokens, refuting the claim that
every upsert deactivates the previously active token. -/
theorem postgres_upsert_two_active_counterexample :
    Service.countActive
        (Service.postgres_upsert
          { Service.sampleTokenTg with id := 2, access_token := "tg-tok-2" } 5
          (Service.postgres_upsert Service.sampleTokenTg 3 []))
        7 Service.MessengerType.telegram = 2 := by
  decide

/-- C10: updating the status of a message id that is absent from the store
returns Ok and changes nothing: the result is the same success value a
present id produces, and every stored entry is left unchanged. -/
theorem update_status_missing_id_spec (st : Service.HistoryStore) (message_id : Nat)
    (status : Service.MessageStatus) (attempts now : Nat) :
    (Service.update_status st message_id status attempts now).1 = Except.ok () ∧
    ((∀ e ∈ st.entries, e.id ≠ message_id) →
      Service.update_status st message_id status attempts now = (Except.ok (), st)) := by
  refine ⟨rfl, fun h => ?_⟩
  unfold Service.update_status
  rw [map_ite_update_eq_self st.entries message_id _ h]

theorem update_status_missing_id_spec_witness :
    (Service.update_status { entries := [Service.pendingEntry], attemptLog := [] } 2
        Service.MessageStatus.sent 1 9).1 = Except.ok () ∧
    Service.update_status { entries := [Service.pendingEntry], attemptLog := [] } 2
        Service.MessageStatus.sent 1 9 =
      (Except.ok (), { entries := [Service.pendingEntry], attemptLog := [] }) :=
  ⟨(update_status_missing_id_spec { entries := [Service.pendingEntry], attemptLog := [] }
      2 Service.MessageStatus.sent 1 9).1,
    (update_status_missing_id_spec { entries := [Service.pendingEntry], attemptLog := [] }
      2 Service.MessageStatus.sent 1 9).2 (by decide)⟩

/-- Helper: the deactivation loop removes every active token of the
upserted token's own (user_id, messenger) pair. -/
theorem countActive_deactivate_self (token : Service.MessengerToken) (now : Nat)
    (tokens : List Service.MessengerToken) :
    Service.countActive (Service.deactivate_matching token now tokens)
      token.user_id token.messenger = 0 := by
  unfold Service.countActive Service.deactivate_matching
  rw [List.countP_map, List.countP_eq_zero]
  intro t _
  by_cases hc : t.user_id = token.user_id ∧ t.messenger = token.messenger ∧
      t.status = Service.MessengerTokenStatus.active
  · simp [Function.comp, if_pos hc]
  · simp only [Function.comp_apply, if_neg hc, decide_eq_true_eq]
    exact hc

/-- Helper: the deactivation loop never increases the number of active
tokens of any pair. -/
theorem countActive_deactivate_le (token : Service.MessengerToken) (now : Nat)
    (tokens : List Service.MessengerToken) (u : Nat) (m : Service.MessengerType) :
    Service.countActive (Service.deactivate_matching token now tokens) u m ≤
      Service.countActive tokens u m := by
  unfold Service.countActive Service.deactivate_matching
  rw [List.countP_map]
  apply List.countP_mono_left
  intro t _ ht
  by_cases hc : t.user_id = token.user_id ∧ t.messenger = token.messenger ∧
      t.status = Service.MessengerTokenStatus.active
  · simp [Function.comp, if_pos hc] at ht
  · simpa [Function.comp, if_neg hc] using ht

/-- Helper: the in-memory upsert preserves the at-most-one-active-token
invariant of every (user_id, messenger) pair. -/
theorem countActive_in_memory_upsert_le (token : Service.MessengerToken) (now : Nat)
    (tokens : List Service.MessengerToken)
    (h : ∀ u' m', Service.countActive tokens u' m' ≤ 1)
    (u : Nat) (m : Service.MessengerType) :
    Service.countActive (Service.in_memory_upsert token now tokens) u m ≤ 1 := by
  have key : Service.in_memory_upsert token now tokens =
      ((Service.deactivate_matching token now tokens).filter fun t =>
        decide (t.id ≠ ({ token with updated_at := now } : Service.MessengerToken).id)) ++
      [{ token with updated_at := now }] := rfl
  have hsplit : Service.countActive (Service.in_memory_upsert token now tokens) u m =
      Service.countActive ((Service.deactivate_matching token now tokens).filter fun t =>
        decide (t.id ≠ ({ token with updated_at := now } : Service.MessengerToken).id)) u m +
      Service.countActive [({ token with updated_at := now } : Service.MessengerToken)] u m := by
    rw [key]
    unfold Service.countActive
    exact List.countP_append _ _ _
  have hfilter : Service.countActive
      ((Service.deactivate_matching token now tokens).filter fun t =>
        decide (t.id ≠ ({ token with updated_at := now } : Service.MessengerToken).id)) u m ≤
      Service.countActive (Service.deactivate_matching token now tokens) u m := by
    unfold Service.countActive
    exact (List.filter_sublist _).countP_le _
  by_cases hpair : token.user_id = u ∧ token.messenger = m
  · have h0 : Service.countActive (Service.deactivate_matching token now tokens) u m = 0 := by
      obtain ⟨h1, h2⟩ := hpair
      subst h1
      subst h2
      exact countActive_deactivate_self token now tokens
    have hone : Service.countActive
        [({ token with updated_at := now } : Service.MessengerToken)] u m ≤ 1 := by
      unfold Service.countActive
      exact le_trans (List.countP_le_length _) (by simp)
    omega
  · have hzero : Service.countActive
        [({ token with updated_at := now } : Service.MessengerToken)] u m = 0 := by
      unfold Service.countActive
      rw [List.countP_cons_of_neg]
      · rfl
      · simp only [decide_eq_true_eq]
        intro hcon
        exact hpair ⟨hcon.1, hcon.2.1⟩
    have hchain := le_trans hfilter
      (le_trans (countActive_deactivate_le token now tokens u m) (h u m))
    omega

/-- C6 amended: after every sequence of in-memory token upserts starting
from the empty store, at most one token per (user_id, messenger) pair has
status Active, because the in-memory upsert deactivates the previously
active token of the pair before storing the new one. (The postgres upsert
does not deactivate anything, see the counterexample.) -/
theorem in_memory_upsert_at_most_one_active (l : List (Service.MessengerToken × Nat))
    (u : Nat) (m : Service.MessengerType) :
    Service.countActive
      (l.foldl (fun acc p => Service.in_memory_upsert p.1 p.2 acc) []) u m ≤ 1 := by
  suffices hgen : ∀ ts : List Service.MessengerToken,
      (∀ u' m', Service.countActive ts u' m' ≤ 1) →
      ∀ u' m', Service.countActive
        (l.foldl (fun acc p => Service.in_memory_upsert p.1 p.2 acc) ts) u' m' ≤ 1 by
    exact hgen [] (fun u' m' => by simp [Service.countActive]) u m
  induction l with
  | nil => exact fun ts hts u' m' => hts u' m'
  | cons p rest ih =>
    intro ts hts u' m'
    exact ih (Service.in_memory_upsert p.1 p.2 ts)
      (fun u2 m2 => countActive_in_memory_upsert_le p.1 p.2 ts hts u2 m2) u' m'

/-- C7: listing a user's messages returns at most min(limit, 200) items
(50 when the limit is absent), the items are exactly the slice of the
matching entries sorted by created_at descending that starts at the
offset, they are sorted by created_at descending, and has_more is true
exactly when a further matching item exists beyond those returned. -/
theorem list_by_user_spec (st : Service.HistoryStore) (user_id : Nat)
    (limit offset : Option Nat) :
    (Service.list_by_user st user_id limit offset).1.length ≤ min (limit.getD 50) 200 ∧
    (limit = none → (Service.list_by_user st user_id limit offset).1.length ≤ 50) ∧
    (Service.list_by_user st user_id limit offset).1 =
      ((List.insertionSort Service.created_desc
          (st.entries.filter fun e => decide (e.user_id = user_id))).drop
        (offset.getD 0)).take (min (limit.getD 50) 200) ∧
    List.Sorted Service.created_desc (Service.list_by_user st user_id limit offset).1 ∧
    ((Service.list_by_user st user_id limit offset).2 = true ↔
      offset.getD 0 + min (limit.getD 50) 200 <
        (st.entries.filter fun e => decide (e.user_id = user_id)).length) := by
  have hres : (Service.list_by_user st user_id limit offset).1 =
      ((List.insertionSort Service.created_desc
          (st.entries.filter fun e => decide (e.user_id = user_id))).drop
        (offset.getD 0)).take (min (limit.getD 50) 200) := by
    show ((((List.insertionSort Service.created_desc
        (st.entries.filter fun e => decide (e.user_id = user_id))).drop
      (offset.getD 0)).take (min (limit.getD 50) 200 + 1)).take
        (min (limit.getD 50) 200)) = _
    rw [List.take_take, Nat.min_eq_left (Nat.le_succ _)]
  have hlen : (Service.list_by_user st user_id limit offset).1.length ≤
      min (limit.getD 50) 200 := by
    rw [hres]
    exact List.length_take_le _ _
  refine ⟨hlen, fun hnone => ?_, hres, ?_, ?_⟩
  · subst hnone
    simpa using hlen
  · rw [hres]
    exact List.Pairwise.sublist ((List.take_sublist _ _).trans (List.drop_sublist _ _))
      (List.sorted_insertionSort Service.created_desc _)
  · show decide (min (limit.getD 50) 200 <
      (((List.insertionSort Service.created_desc
          (st.entries.filter fun e => decide (e.user_id = user_id))).drop
        (offset.getD 0)).take (min (limit.getD 50) 200 + 1)).length) = true ↔ _
    rw [decide_eq_true_iff]
    simp only [List.length_take, List.length_drop, List.length_insertionSort]
    omega

theorem list_by_user_spec_witness :
    (Service.list_by_user Service.sampleStore 7 none none).1.length ≤
      min ((none : Option Nat).getD 50) 200 ∧
    (Service.list_by_user Service.sampleStore 7 none none).1.length ≤ 50 ∧
    (Service.list_by_user Service.sampleStore 7 none none).1 =
      ((List.insertionSort Service.created_desc
          (Service.sampleStore.entries.filter fun e => decide (e.user_id = 7))).drop
        ((none : Option Nat).getD 0)).take (min ((none : Option Nat).getD 50) 200) ∧
    List.Sorted Service.created_desc (Service.list_by_user Service.sampleStore 7 none none).1 ∧
    ((Service.list_by_user Service.sampleStore 7 none none).2 = true ↔
      (none : Option Nat).getD 0 + min ((none : Option Nat).getD 50) 200 <
        (Service.sampleStore.entries.filter fun e => decide (e.user_id = 7)).length) :=
  ⟨(list_by_user_spec Service.sampleStore 7 none none).1,
    (list_by_user_spec Service.sampleStore 7 none none).2.1 rfl,
    (list_by_user_spec Service.sampleStore 7 none none).2.2.1,
    (list_by_user_spec Service.sampleStore 7 none none).2.2.2.1,
    (list_by_user_spec Service.sampleStore 7 none none).2.2.2.2⟩

/-- Helper: the outcome of the enqueue loop does not depend on the state it
threads, only on the broker outcomes and the queued list. -/
theorem enqueue_list_fst_eq (ok : Nat → Bool) :
    ∀ (l : List (Nat × Nat × Core.MessengerType)) (st st' : Core.CoreState) (i : Nat),
      (Core.enqueue_list ok st i l).1 = (Core.enqueue_list ok st' i l).1 := by
  intro l
  induction l with
  | nil => intro st st' i; rfl
  | cons q rest ih =>
    intro st st' i
    cases h : ok i with
    | true => simpa [Core.enqueue_list, h] using ih _ _ (i + 1)
    | false => simp [Core.enqueue_list, h]

/-- Helper: the enqueue loop never touches the saved messages. -/
theorem enqueue_list_saved (ok : Nat → Bool) :
    ∀ (l : List (Nat × Nat × Core.MessengerType)) (st : Core.CoreState) (i : Nat),
      (Core.enqueue_list ok st i l).2.saved = st.saved := by
  intro l
  induction l with
  | nil => intro st i; rfl
  | cons q rest ih =>
    intro st i
    cases h : ok i with
    | true => simpa [Core.enqueue_list, h] using ih _ (i + 1)
    | false => simp [Core.enqueue_list, h]

/-- Helper: the MessageQueued events produced by route_message project to
one queue triple per destination, in order. -/
theorem route_message_queued (msg : Core.Message) (now : Nat) :
    (Core.route_message msg now).filterMap Core.queued_of =
      msg.destinations.map fun d => (msg.id, d.id, d.messenger_type) := by
  unfold Core.route_message
  rw [List.filterMap_cons]
  show (msg.destinations.map fun d =>
    Core.DomainEvent.messageQueued msg.id d.id d.messenger_type now).filterMap
      Core.queued_of = _
  induction msg.destinations with
  | nil => rfl
  | cons d rest ih =>
    simp only [List.map_cons, List.filterMap_cons, Core.queued_of]
    rw [ih]

/-- Helper: save_and_enqueue always appends exactly the given message to
the saved list, whatever the broker outcomes. -/
theorem save_and_enqueue_saved (ok : Nat → Bool) (st : Core.CoreState)
    (msg : Core.Message) (now : Nat) :
    (Core.save_and_enqueue ok st msg now).2.saved = st.saved ++ [msg] := by
  unfold Core.save_and_enqueue
  have h2 := enqueue_list_saved ok ((Core.route_message msg now).filterMap Core.queued_of)
    { st with saved := st.saved ++ [msg] } 0
  rcases henq : Core.enqueue_list ok { st with saved := st.saved ++ [msg] } 0
      ((Core.route_message msg now).filterMap Core.queued_of) with ⟨r, st2⟩
  rw [henq] at h2
  cases r with
  | ok a => simpa using h2
  | error e => simpa using h2

/-- Helper: the result of save_and_enqueue depends only on the broker
outcomes, the message id and the destinations, not on the prior state or
the payload. -/
theorem save_and_enqueue_fst_eq (ok : Nat → Bool) (st st' : Core.CoreState)
    (msg msg' : Core.Message) (now : Nat) (hid : msg.id = msg'.id)
    (hdest : msg.destinations = msg'.destinations) :
    (Core.save_and_enqueue ok st msg now).1 =
      (Core.save_and_enqueue ok st' msg' now).1 := by
  unfold Core.save_and_enqueue
  rw [route_message_queued, route_message_queued, hid, hdest]
  have hfst := enqueue_list_fst_eq ok
    (msg'.destinations.map fun d => (msg'.id, d.id, d.messenger_type))
    { st with saved := st.saved ++ [msg] } { st' with saved := st'.saved ++ [msg'] } 0
  rcases h1 : Core.enqueue_list ok { st with saved := st.saved ++ [msg] } 0
      (msg'.destinations.map fun d => (msg'.id, d.id, d.messenger_type)) with ⟨r1, t1⟩
  rcases h2 : Core.enqueue_list ok { st' with saved := st'.saved ++ [msg'] } 0
      (msg'.destinations.map fun d => (msg'.id, d.id, d.messenger_type)) with ⟨r2, t2⟩
  rw [h1, h2] at hfst
  rw [h1, h2]
  cases r1 with
  | ok a =>
    cases r2 with
    | ok b => rfl
    | error e => exact Except.noConfusion hfst
  | error e1 =>
    cases r2 with
    | ok b => exact Except.noConfusion hfst
    | error e2 => simpa using hfst

/-- Helper: every destination built by the destination loop has status
Pending. -/
theorem build_destinations_status_pending (message_id : Nat) :
    ∀ (l : List (Core.MessengerType × String)) (nextId : Nat)
      (ds : List Core.MessageDestination),
      Core.build_destinations message_id nextId l = Except.ok ds →
      ∀ d ∈ ds, d.status = Core.DeliveryStatus.pending := by
  intro l
  induction l with
  | nil =>
    intro nextId ds h d hd
    injection h with h2
    subst h2
    cases hd
  | cons x xs ih =>
    intro nextId ds h d hd
    obtain ⟨mt, cid⟩ := x
    unfold Core.build_destinations at h
    by_cases hc : cid = ""
    · rw [if_pos hc] at h
      cases h
    · rw [if_neg hc] at h
      cases hb : Core.build_destinations message_id (nextId + 1) xs with
      | error e => rw [hb] at h; cases h
      | ok ds' =>
        rw [hb] at h
        injection h with h2
        subst h2
        cases hd with
        | head => rfl
        | tail _ htail => exact ih (nextId + 1) ds' hb d htail

/-- Helper: after appending a fresh entry and applying the scheduled
status update by id, looking the fresh id up finds the entry with status
Scheduled. -/
theorem find_map_ite_scheduled (l : List Service.MessageHistoryEntry) (newId : Nat)
    (entry : Service.MessageHistoryEntry) (now : Nat)
    (hid : entry.id = newId)
    (hfresh : ∀ e ∈ l, e.id ≠ newId) :
    ((((l ++ [entry]).map fun e =>
        if e.id = newId then
          { e with status := Service.MessageStatus.scheduled, attempts := 0, updated_at := now }
        else e).find? fun e => e.id == newId).map fun e => e.status) =
      some Service.MessageStatus.scheduled := by
  induction l with
  | nil =>
    simp only [List.nil_append, List.map_cons, List.map_nil, if_pos hid]
    rw [List.find?_cons_of_pos]
    · rfl
    · simpa using hid
  | cons x xs ih =>
    have hx : x.id ≠ newId := hfresh x (List.mem_cons_self x xs)
    simp only [List.cons_append, List.map_cons]
    rw [if_neg hx, List.find?_cons_of_neg]
    · exact ih fun e he => hfresh e (List.mem_cons_of_mem x he)
    · simpa using hx

/-- Helper: any message saved by send_message_execute that was not already
in the store has all destinations Pending. -/
theorem send_saved_new_pending (ok : Nat → Bool) (st : Core.CoreState)
    (req : Core.SendMessageRequest) (supply now : Nat) (m : Core.Message)
    (hmem : m ∈ (Core.send_message_execute ok st req supply now).2.saved)
    (hnew : m ∉ st.saved) :
    ∀ d ∈ m.destinations, d.status = Core.DeliveryStatus.pending := by
  unfold Core.send_message_execute at hmem
  by_cases hc : req.content.data.all Char.isWhitespace
  · rw [if_pos hc] at hmem
    exact absurd hmem hnew
  · rw [if_neg hc] at hmem
    by_cases hd : req.destinations.isEmpty
    · rw [if_pos hd] at hmem
      exact absurd hmem hnew
    · rw [if_neg hd] at hmem
      cases hb : Core.build_destinations supply (supply + 1) req.destinations with
      | error e =>
        simp only [hb] at hmem
        exact absurd hmem hnew
      | ok dests =>
        simp only [hb, save_and_enqueue_saved] at hmem
        rcases List.mem_append.mp hmem with hold | hnewm
        · exact absurd hold hnew
        · have hm := List.mem_singleton.mp hnewm
          subst hm
          exact build_destinations_status_pending supply req.destinations
            (supply + 1) dests hb

/-- C5 amended: when the queue publish fails after persistence, the core
send use case leaves every destination it persisted in status Pending when
the queue error is surfaced; the schedule-message use case instead marks
the entry Scheduled before publishing, so on a publish failure the stored
status is Scheduled, not Pending. -/
theorem publish_failure_destination_status_spec :
    (∀ (ok : Nat → Bool) (st : Core.CoreState) (req : Core.SendMessageRequest)
        (supply now : Nat) (m : Core.Message),
      (Core.send_message_execute ok st req supply now).1 =
        Except.error (Core.SendMessageError.queueError "enqueue failed") →
      m ∈ (Core.send_message_execute ok st req supply now).2.saved →
      m ∉ st.saved →
      ∀ d ∈ m.destinations, d.status = Core.DeliveryStatus.pending) ∧
    (∀ (tokens : List Service.MessengerToken) (st : Service.HistoryStore)
        (req : Service.ScheduleMessageRequest) (max_attempts newId eventId now : Nat),
      Service.find_active tokens req.user_id req.messenger ≠ none →
      (∀ e ∈ st.entries, e.id ≠ newId) →
      (Service.schedule_message tokens st false req max_attempts newId
          eventId now).result = Except.error "publish failed" ∧
      ((Service.getEntry (Service.schedule_message tokens st false req max_attempts
          newId eventId now).store newId).map fun e => e.status) =
        some Service.MessageStatus.scheduled) := by
  constructor
  · intro ok st req supply now m _ hmem hnew
    exact send_saved_new_pending ok st req supply now m hmem hnew
  · intro tokens st req max_attempts newId eventId now hfa hfresh
    cases hfa2 : Service.find_active tokens req.user_id req.messenger with
    | none => exact absurd hfa2 hfa
    | some tok =>
      unfold Service.schedule_message
      rw [hfa2]
      refine ⟨rfl, ?_⟩
      show ((Service.getEntry
        (Service.update_status
          (Service.insertEntry st newId req.user_id req.messenger req.recipient
            { body := req.text, message_type := Service.MessageType.plainText }
            req.requested_by now).2
          newId Service.MessageStatus.scheduled 0 now).2 newId).map fun e => e.status) =
        some Service.MessageStatus.scheduled
      unfold Service.getEntry Service.update_status Service.insertEntry
      exact find_map_ite_scheduled st.entries newId _ now rfl hfresh

theorem publish_failure_destination_status_spec_witness :
    (∀ d ∈ Core.sampleSavedMsg.destinations, d.status = Core.DeliveryStatus.pending) ∧
    ((Service.schedule_message [Service.sampleTokenTg] { entries := [], attemptLog := [] }
        false Service.sampleScheduleReq 3 1 100 5).result = Except.error "publish failed" ∧
      ((Service.getEntry (Service.schedule_message [Service.sampleTokenTg]
            { entries := [], attemptLog := [] } false Service.sampleScheduleReq 3 1 100
            5).store 1).map fun e => e.status) = some Service.MessageStatus.scheduled) :=
  ⟨publish_failure_destination_status_spec.1 (fun _ => false) { saved := [], queued := [] }
      Core.sampleSendReq 10 0 Core.sampleSavedMsg (by decide) (by decide) (by decide),
    publish_failure_destination_status_spec.2 [Service.sampleTokenTg]
      { entries := [], attemptLog := [] } Service.sampleScheduleReq 3 1 100 5
      (by decide) (by decide)⟩

/-- C8: in the core send use case every format value other than exactly
markdown or html (an absent format and unrecognised strings alike) is
mapped to the plain payload, and the outcome of the use case never depends
on the format value: no send request is rejected because of an unknown
format. -/
theorem unknown_format_maps_to_plain :
    (∀ (format : Option String) (content : String), format ≠ some "markdown" →
      format ≠ some "html" →
      Core.payload_of content (Core.parse_format format) = Core.Payload.plain content) ∧
    (∀ (ok : Nat → Bool) (st : Core.CoreState) (req : Core.SendMessageRequest)
        (f1 f2 : Option String) (supply now : Nat),
      (Core.send_message_execute ok st { req with format := f1 } supply now).1 =
        (Core.send_message_execute ok st { req with format := f2 } supply now).1) := by
  constructor
  · intro format content h1 h2
    cases format with
    | none => rfl
    | some s =>
      have hs1 : s ≠ "markdown" := fun h => h1 (by rw [h])
      have hs2 : s ≠ "html" := fun h => h2 (by rw [h])
      simp [Core.parse_format, Core.payload_of, hs1, hs2]
  · intro ok st req f1 f2 supply now
    by_cases hc : req.content.data.all Char.isWhitespace
    · simp [Core.send_message_execute, hc]
    · by_cases hd : req.destinations.isEmpty
      · simp [Core.send_message_execute, hc, hd]
      · cases hb : Core.build_destinations supply (supply + 1) req.destinations with
        | error e => simp [Core.send_message_execute, hc, hd, hb]
        | ok dests =>
          simp only [Core.send_message_execute, hc, hd, hb]
          simp only [Bool.false_eq_true, if_false, ite_false]
          exact save_and_enqueue_fst_eq ok st st _ _ now rfl rfl

theorem unknown_format_maps_to_plain_witness :
    Core.payload_of "hi" (Core.parse_format (some "xml")) = Core.Payload.plain "hi" ∧
    (Core.send_message_execute (fun _ => true) { saved := [], queued := [] }
        { content := "hello", format := some "xml",
          destinations := [(Core.MessengerType.telegram, "12345")] } 10 0).1 =
      (Core.send_message_execute (fun _ => true) { saved := [], queued := [] }
        { content := "hello", format := none,
          destinations := [(Core.MessengerType.telegram, "12345")] } 10 0).1 :=
  ⟨unknown_format_maps_to_plain.1 (some "xml") "hi" (by decide) (by decide),
    unknown_format_maps_to_plain.2 (fun _ => true) { saved := [], queued := [] }
      { content := "hello", format := none,
        destinations := [(Core.MessengerType.telegram, "12345")] } (some "xml") none 10 0⟩

/-- C3: the shared retry-delay function returns exactly 60 * 2 ^ min(k, 4)
seconds for every retry count k; in particular the first automatic retry
(k = 1) is delayed 120 seconds and the delay saturates at 960 seconds for
every k ≥ 4. -/
theorem calculate_retry_schedule_spec (k : Nat) :
    Core.calculate_retry_schedule k = 60 * 2 ^ (min k 4) ∧
    Core.calculate_retry_schedule 1 = 120 ∧
    (4 ≤ k → Core.calculate_retry_schedule k = 960) := by
  refine ⟨rfl, rfl, fun h => ?_⟩
  unfold Core.calculate_retry_schedule
  rw [min_eq_right h]
  norm_num

theorem calculate_retry_schedule_spec_witness :
    Core.calculate_retry_schedule 6 = 60 * 2 ^ (min 6 4) ∧
    Core.calculate_retry_schedule 1 = 120 ∧
    Core.calculate_retry_schedule 6 = 960 :=
  ⟨(calculate_retry_schedule_spec 6).1, (calculate_retry_schedule_spec 6).2.1,
    (calculate_retry_schedule_spec 6).2.2 (by decide)⟩

/-- C9: the VK adapter validate_chat_id returns Ok true exactly when the
chat id parses as a positive 64-bit integer, returns Ok false for the empty
string and for non-positive parsed integers, and returns an InvalidChatId
error (not the advertised boolean false) for every non-empty chat id that
does not parse as an i64. -/
theorem vk_validate_chat_id_spec (s : String) :
    (Core.vk_validate_chat_id s = Except.ok true ↔
      ∃ n : Int, Core.parse_i64 s = some n ∧ 0 < n) ∧
    (s = "" → Core.vk_validate_chat_id s = Except.ok false) ∧
    (∀ n : Int, Core.parse_i64 s = some n → n ≤ 0 →
      Core.vk_validate_chat_id s = Except.ok false) ∧
    (s ≠ "" → Core.parse_i64 s = none →
      Core.vk_validate_chat_id s = Except.error (Core.MessengerError.invalidChatId s)) := by
  by_cases hs : s = ""
  · subst hs
    have hp : Core.parse_i64 "" = none := rfl
    refine ⟨⟨fun h => ?_, ?_⟩, fun _ => rfl, fun n hn _ => ?_, fun h _ => absurd rfl h⟩
    · have h2 : (Except.ok false : Except Core.MessengerError Bool) = Except.ok true := h
      injection h2 with h3
      exact Bool.noConfusion h3
    · rintro ⟨n, hn, -⟩
      rw [hp] at hn
      cases hn
    · rw [hp] at hn
      cases hn
  · have hempty : s.isEmpty = false := by
      cases h : s.isEmpty
      · rfl
      · exact absurd ((String.isEmpty_iff s).mp h) hs
    cases hp : Core.parse_i64 s with
    | none =>
      refine ⟨⟨fun h => ?_, ?_⟩, fun h => absurd h hs, fun n hn _ => ?_, fun _ _ => ?_⟩
      · exfalso
        simp [Core.vk_validate_chat_id, hempty, hp] at h
      · rintro ⟨n, hn, -⟩
        cases hn
      · cases hn
      · simp [Core.vk_validate_chat_id, hempty, hp]
    | some n =>
      refine ⟨⟨fun h => ?_, ?_⟩, fun h => absurd h hs, fun m hm hm0 => ?_, fun _ hnone => ?_⟩
      · simp [Core.vk_validate_chat_id, hempty, hp] at h
        exact ⟨n, rfl, h⟩
      · rintro ⟨m, hm, hm0⟩
        injection hm with hm2
        subst hm2
        simp [Core.vk_validate_chat_id, hempty, hp, hm0]
      · injection hm with hm2
        subst hm2
        simp [Core.vk_validate_chat_id, hempty, hp, not_lt.mpr hm0]
      · cases hnone

theorem vk_validate_chat_id_spec_witness :
    (Core.vk_validate_chat_id "12345" = Except.ok true) ∧
    (Core.vk_validate_chat_id "" = Except.ok false) ∧
    (Core.parse_i64 "-5" = some (-5) ∧ Core.vk_validate_chat_id "-5" = Except.ok false) ∧
    ("abc" ≠ "" ∧ Core.parse_i64 "abc" = none ∧
      Core.vk_validate_chat_id "abc" = Except.error (Core.MessengerError.invalidChatId "abc")) :=
  ⟨(vk_validate_chat_id_spec "12345").1.mpr ⟨12345, by decide, by decide⟩,
    (vk_validate_chat_id_spec "").2.1 rfl,
    ⟨by decide, (vk_validate_chat_id_spec "-5").2.2.1 (-5) (by decide) (by decide)⟩,
    ⟨by decide, by decide,
      (vk_validate_chat_id_spec "abc").2.2.2 (by decide) (by decide)⟩⟩

end Messaging
